import Mathlib

/-!
Shallow embedding of the Book Tracker web application:
the route handlers in `app/api/books/route.ts` (GET, POST, DELETE),
`app/api/books/[id]/route.ts` (DELETE, PATCH), the edge middleware in
`middleware.ts`, and the record types in `types/database.ts`.

The managed backend (Supabase/PostgREST) is modelled as a list of rows plus
explicit query semantics: `eq` filters, `order by created_at desc`,
`ilike %s%` as case-insensitive substring, `insert`, scoped `update`/`delete`,
and `.single()` which fails (PGRST116) when the row count is not exactly one.
The database state also carries a logical clock supplying `created_at`
values and a counter supplying generated ids.
-/

namespace BookTracker

/-- A row of the `books` table (`Book` in `types/database.ts`). -/
structure Book where
  id : String
  user_id : String
  title : String
  author : String
  status : String
  created_at : Nat
deriving DecidableEq, Repr

/-- The resolved session: only the identity key matters to the handlers. -/
structure Session where
  user_id : String
deriving DecidableEq, Repr

/-- Backend state: the `books` table, plus the id generator and the clock
that produce server-generated `id` and `created_at` values on insert. -/
structure DB where
  books : List Book
  nextId : Nat
  now : Nat
deriving DecidableEq, Repr

/-- `['reading', 'completed', 'wishlist'].includes(s)` -/
def validStatus (s : String) : Bool :=
  s == "reading" || s == "completed" || s == "wishlist"

/-- The whitespace class used by `String.prototype.trim`. -/
def isSpaceChar (c : Char) : Bool :=
  c == ' ' || c == '\t' || c == '\n' || c == '\r'

/-- JS `s.trim()`: strip leading and trailing whitespace. -/
def jsTrim (s : String) : String :=
  ⟨((s.data.dropWhile isSpaceChar).reverse.dropWhile isSpaceChar).reverse⟩

/-- Case folding of one character, as `ilike` / `toLowerCase` fold ASCII. -/
def lowerChar (c : Char) : Char :=
  if 65 ≤ c.toNat && c.toNat ≤ 90 then Char.ofNat (c.toNat + 32) else c

/-- Postgres `field ilike %pat%`: case-insensitive substring containment. -/
def ilikeContains (field pat : String) : Bool :=
  decide (pat.data.map lowerChar <:+: field.data.map lowerChar)

/-- The `.or(title.ilike.%search%, author.ilike.%search%)` disjunction. -/
def matchesSearch (search : String) (b : Book) : Bool :=
  ilikeContains b.title search || ilikeContains b.author search

/-- One step of insertion into a list kept in descending `created_at` order. -/
def insertByCreatedDesc (b : Book) : List Book → List Book
  | [] => [b]
  | c :: cs =>
    if c.created_at ≤ b.created_at then b :: c :: cs
    else c :: insertByCreatedDesc b cs

/-- `order('created_at', { ascending: false })`: newest first. -/
def sortByCreatedDesc : List Book → List Book
  | [] => []
  | b :: bs => insertByCreatedDesc b (sortByCreatedDesc bs)

/-- Outcome of `GET /api/books`. `ok` is HTTP 200 with body `{books}`. -/
inductive GetResult where
  | err (status : Nat) (error : String)
  | ok (books : List Book)
deriving DecidableEq, Repr

/-- The HTTP status code carried by a GET response. -/
def GetResult.httpStatus : GetResult → Nat
  | .err s _ => s
  | .ok _ => 200

/-- The list payload of a GET response (empty on error responses). -/
def GetResult.books : GetResult → List Book
  | .err _ _ => []
  | .ok l => l

/-- `GET(request)` in `app/api/books/route.ts`: requires a session, scopes to
`user_id = session.user.id`, orders newest first, equality-filters by `status`
only when the value is truthy and one of the three enum values, and applies
the ilike search only when `search` is truthy. -/
def getBooks (sess : Option Session) (statusParam searchParam : Option String)
    (db : DB) : GetResult :=
  match sess with
  | none => .err 401 "Unauthorized"
  | some s =>
    let owned := db.books.filter (fun b => b.user_id == s.user_id)
    let afterStatus :=
      match statusParam with
      | some st =>
        if st != "" && validStatus st then owned.filter (fun b => b.status == st)
        else owned
      | none => owned
    let afterSearch :=
      match searchParam with
      | some se =>
        if se != "" then afterStatus.filter (fun b => matchesSearch se b)
        else afterStatus
      | none => afterStatus
    .ok (sortByCreatedDesc afterSearch)

/-- The JSON body of `POST /api/books` (`CreateBookRequest`). A JSON body may
carry an extra owner field, which the handler never reads; it is kept here so
that independence from it can be stated. -/
structure CreateReq where
  title : String
  author : String
  status : String
  body_user_id : Option String
deriving DecidableEq, Repr

/-- Outcome of `POST /api/books`. `created` is HTTP 201 with body `{book}`. -/
inductive PostResult where
  | err (status : Nat) (error : String)
  | created (book : Book)
deriving DecidableEq, Repr

/-- The HTTP status code carried by a POST response. -/
def PostResult.httpStatus : PostResult → Nat
  | .err s _ => s
  | .created _ => 201

/-- `POST(request)` in `app/api/books/route.ts`: requires a session, rejects a
falsy (empty) title or author with 400, rejects a status outside the enum with
400, then inserts with trimmed title/author and `user_id` forced to the
session identity; the insert consumes one id and one clock tick. -/
def postBook (sess : Option Session) (body : CreateReq) (db : DB) :
    PostResult × DB :=
  match sess with
  | none => (.err 401 "Unauthorized", db)
  | some s =>
    if body.title == "" || body.author == "" then
      (.err 400 "Title and author are required", db)
    else if !validStatus body.status then
      (.err 400 "Invalid status", db)
    else
      let b : Book :=
        { id := toString db.nextId
          user_id := s.user_id
          title := jsTrim body.title
          author := jsTrim body.author
          status := body.status
          created_at := db.now }
      (.created b, { books := db.books ++ [b], nextId := db.nextId + 1, now := db.now + 1 })

/-- The JSON body of `PATCH /api/books/{id}` (`UpdateBookRequest`). -/
structure UpdateReq where
  title : Option String
  author : Option String
  status : Option String
deriving DecidableEq, Repr

/-- The `updates` object accumulated by the PATCH handler. -/
structure Updates where
  title : Option String
  author : Option String
  status : Option String
deriving DecidableEq, Repr

/-- `Object.keys(updates).length === 0` -/
def Updates.isEmpty (u : Updates) : Bool :=
  u.title == none && u.author == none && u.status == none

/-- The PATCH handler's body validation: a truthy title/author is kept
trimmed; a status is kept only when truthy and inside the enum. -/
def buildUpdates (body : UpdateReq) : Updates :=
  { title :=
      match body.title with
      | some t => if t != "" then some (jsTrim t) else none
      | none => none
    author :=
      match body.author with
      | some a => if a != "" then some (jsTrim a) else none
      | none => none
    status :=
      match body.status with
      | some st => if st != "" && validStatus st then some st else none
      | none => none }

/-- Applying an `updates` object to a row: present fields overwrite,
absent fields keep the stored value. -/
def applyUpdates (u : Updates) (b : Book) : Book :=
  { b with
    title := u.title.getD b.title
    author := u.author.getD b.author
    status := u.status.getD b.status }

/-- PostgREST error PGRST116: `.single()` saw a row count other than one. -/
def pgrstNoRowsMsg : String :=
  "JSON object requested, multiple (or no) rows returned"

/-- Outcome of `PATCH /api/books/{id}`. `ok` is HTTP 200 with body `{book}`. -/
inductive PatchResult where
  | err (status : Nat) (error : String)
  | ok (book : Book)
deriving DecidableEq, Repr

/-- The HTTP status code carried by a PATCH response. -/
def PatchResult.httpStatus : PatchResult → Nat
  | .err s _ => s
  | .ok _ => 200

/-- `PATCH(request, {params})` in `app/api/books/[id]/route.ts`: requires a
session, builds `updates`, 400 on an empty `updates`, then runs
`update(updates).eq('id', id).eq('user_id', uid).select().single()`.
When the scoped update matches exactly one row it is rewritten and returned;
any other row count makes `.single()` fail, which the handler maps to 500
(the enclosing transaction leaves no row modified). -/
def patchBook (sess : Option Session) (id : String) (body : UpdateReq)
    (db : DB) : PatchResult × DB :=
  match sess with
  | none => (.err 401 "Unauthorized", db)
  | some s =>
    let u := buildUpdates body
    if u.isEmpty then (.err 400 "No valid fields to update", db)
    else
      match db.books.filter (fun b => b.id == id && b.user_id == s.user_id) with
      | [b] =>
        (.ok (applyUpdates u b),
         { db with
             books := db.books.map (fun c =>
               if c.id == id && c.user_id == s.user_id then applyUpdates u c
               else c) })
      | _ => (.err 500 pgrstNoRowsMsg, db)

/-- Outcome of `DELETE /api/books/{id}`. `message` is HTTP 200 with body
`{message: ...}`. -/
inductive DeleteByIdResult where
  | err (status : Nat) (error : String)
  | message (msg : String)
deriving DecidableEq, Repr

/-- The HTTP status code carried by a `DELETE /api/books/{id}` response. -/
def DeleteByIdResult.httpStatus : DeleteByIdResult → Nat
  | .err s _ => s
  | .message _ => 200

/-- `DELETE(request, {params})` in `app/api/books/[id]/route.ts`: requires a
session, then runs `delete().eq('id', id).eq('user_id', uid)`. A delete that
matches zero rows is not an error, so the handler always answers 200. -/
def deleteBookById (sess : Option Session) (id : String) (db : DB) :
    DeleteByIdResult × DB :=
  match sess with
  | none => (.err 401 "Unauthorized", db)
  | some s =>
    (.message "Book deleted successfully",
     { db with
         books := db.books.filter (fun b => !(b.id == id && b.user_id == s.user_id)) })

/-- Outcome of `DELETE /api/books?...` (collection route). `success` is HTTP
200 with body `{success: true}`. -/
inductive DeleteCollResult where
  | err (status : Nat) (error : String)
  | success
deriving DecidableEq, Repr

/-- The HTTP status code carried by a collection-route DELETE response. -/
def DeleteCollResult.httpStatus : DeleteCollResult → Nat
  | .err s _ => s
  | .success => 200

/-- `pathname.split('/').pop()` of the JS handler: the characters after the
last slash (empty when the path ends in a slash). -/
def pathLastSegment (pathname : String) : String :=
  ⟨(pathname.data.reverse.takeWhile (fun c => c != '/')).reverse⟩

/-- `DELETE(request)` in `app/api/books/route.ts`: requires a session, takes
the trailing path segment as id (400 when falsy), looks the row up scoped by
id and owner via `.single()` (404 on any failure), then deletes by id. -/
def deleteBookCollection (sess : Option Session) (pathname : String) (db : DB) :
    DeleteCollResult × DB :=
  match sess with
  | none => (.err 401 "Unauthorized", db)
  | some s =>
    let id := pathLastSegment pathname
    if id == "" then (.err 400 "Book ID is required", db)
    else
      match db.books.filter (fun b => b.id == id && b.user_id == s.user_id) with
      | [_] =>
        (.success, { db with books := db.books.filter (fun b => !(b.id == id)) })
      | _ => (.err 404 "Book not found or unauthorized", db)

/-- What the middleware answers for a request. -/
inductive MwResult where
  | next
  | redirect (location : String)
  | unauthorizedJson
deriving DecidableEq, Repr

/-- JS `s.startsWith(pre)`: `pre` is a prefix of `s`. -/
def jsStartsWith (s pre : String) : Bool :=
  pre.data.isPrefixOf s.data

/-- `middleware(req)` in `middleware.ts`, after session resolution: the three
`pathname.startsWith` gates, in source order, else pass through. -/
def middleware (hasSession : Bool) (pathname : String) : MwResult :=
  if !hasSession && jsStartsWith pathname "/dashboard" then .redirect "/auth/login"
  else if !hasSession && jsStartsWith pathname "/api" then .unauthorizedJson
  else if hasSession && jsStartsWith pathname "/auth" then .redirect "/dashboard"
  else .next

/-- One Next.js matcher pattern `base/:path*`: it matches `base` itself and
every path of the form `base/...`. -/
def matchesPathPattern (base : String) (p : String) : Bool :=
  p == base || jsStartsWith p (base ++ "/")

/-- The `config.matcher` of `middleware.ts`:
`['/dashboard/:path*', '/auth/:path*', '/api/:path*']`. -/
def inMatcherScope (p : String) : Bool :=
  matchesPathPattern "/dashboard" p || matchesPathPattern "/auth" p ||
    matchesPathPattern "/api" p

/-- The whole edge layer: the middleware runs only on matcher-scope paths;
every other request passes through untouched. -/
def edgeGatekeeper (hasSession : Bool) (pathname : String) : MwResult :=
  if inMatcherScope pathname then middleware hasSession pathname else .next


/-! ### Helper lemmas about the embedded operations -/

lemma mem_insertByCreatedDesc {a b : Book} {l : List Book} :
    a ∈ insertByCreatedDesc b l ↔ a = b ∨ a ∈ l := by
  induction l with
  | nil => simp [insertByCreatedDesc]
  | cons c cs ih =>
    simp only [insertByCreatedDesc]
    split
    · simp [List.mem_cons]
    · simp [List.mem_cons, ih]
      tauto

lemma mem_sortByCreatedDesc {a : Book} {l : List Book} :
    a ∈ sortByCreatedDesc l ↔ a ∈ l := by
  induction l with
  | nil => simp [sortByCreatedDesc]
  | cons b bs ih => simp [sortByCreatedDesc, mem_insertByCreatedDesc, ih]

lemma pairwise_insertByCreatedDesc {b : Book} {l : List Book}
    (h : l.Pairwise (fun x y => y.created_at ≤ x.created_at)) :
    (insertByCreatedDesc b l).Pairwise (fun x y => y.created_at ≤ x.created_at) := by
  induction l with
  | nil => simp [insertByCreatedDesc]
  | cons c cs ih =>
    rcases List.pairwise_cons.mp h with ⟨hc, hcs⟩
    simp only [insertByCreatedDesc]
    split
    case isTrue hle =>
      refine List.pairwise_cons.mpr ⟨?_, h⟩
      intro y hy
      rcases List.mem_cons.mp hy with rfl | hy
      · exact hle
      · exact le_trans (hc y hy) hle
    case isFalse hgt =>
      refine List.pairwise_cons.mpr ⟨?_, ih hcs⟩
      intro y hy
      rcases mem_insertByCreatedDesc.mp hy with rfl | hy
      · exact Nat.le_of_lt (Nat.lt_of_not_le hgt)
      · exact hc y hy

lemma pairwise_sortByCreatedDesc {l : List Book} :
    (sortByCreatedDesc l).Pairwise (fun x y => y.created_at ≤ x.created_at) := by
  induction l with
  | nil => simp [sortByCreatedDesc]
  | cons b bs ih =>
    simp only [sortByCreatedDesc]
    exact pairwise_insertByCreatedDesc ih

lemma head_sortByCreatedDesc {x : Book} {l : List Book}
    (hx : x ∈ l) (hmax : ∀ y ∈ l, y = x ∨ y.created_at < x.created_at) :
    (sortByCreatedDesc l).head? = some x := by
  have hmem : x ∈ sortByCreatedDesc l := mem_sortByCreatedDesc.mpr hx
  cases hsort : sortByCreatedDesc l with
  | nil => rw [hsort] at hmem; simp at hmem
  | cons h t =>
    have hpw := pairwise_sortByCreatedDesc (l := l)
    rw [hsort] at hmem hpw
    rcases List.pairwise_cons.mp hpw with ⟨hhead, _⟩
    have hh : h ∈ l := mem_sortByCreatedDesc.mp (hsort ▸ List.mem_cons_self h t)
    rcases List.mem_cons.mp hmem with rfl | hxt
    · rfl
    · rcases hmax h hh with rfl | hlt
      · rfl
      · exact absurd (hhead x hxt) (Nat.not_le.mpr hlt)

lemma validStatus_ne_empty {v : String} (h : validStatus v = true) :
    (v != "") = true := by
  simp only [validStatus, Bool.or_eq_true, beq_iff_eq] at h
  rcases h with (rfl | rfl) | rfl <;> decide


lemma getBooks_valid_status_books {s : Session} {v : String} {db : DB}
    (hv : validStatus v = true) :
    (getBooks (some s) (some v) none db).books =
      sortByCreatedDesc
        ((db.books.filter (fun b => b.user_id == s.user_id)).filter
          (fun b => b.status == v)) := by
  have hne : (v != "") = true := validStatus_ne_empty hv
  simp [getBooks, GetResult.books, hne, hv]

lemma getBooks_invalid_status {s : Session} {v : String} {db : DB}
    (hv : validStatus v = false) :
    getBooks (some s) (some v) none db = getBooks (some s) none none db := by
  simp [getBooks, hv]

lemma getBooks_none_none_books (s : Session) (db : DB) :
    (getBooks (some s) none none db).books =
      sortByCreatedDesc (db.books.filter (fun b => b.user_id == s.user_id)) := rfl

lemma getBooks_search_books {s : Session} {se : String} {db : DB}
    (hse : (se != "") = true) :
    (getBooks (some s) none (some se) db).books =
      sortByCreatedDesc
        ((db.books.filter (fun b => b.user_id == s.user_id)).filter
          (fun b => matchesSearch se b)) := by
  simp [getBooks, GetResult.books, hse]

lemma user_of_mem_getBooks {s : Session} {st se : Option String} {db : DB}
    {b : Book} (h : b ∈ (getBooks (some s) st se db).books) :
    b ∈ db.books ∧ b.user_id = s.user_id := by
  cases st with
  | none =>
    cases se with
    | none =>
      rw [getBooks_none_none_books, mem_sortByCreatedDesc, List.mem_filter] at h
      exact ⟨h.1, by simpa using h.2⟩
    | some v =>
      simp only [getBooks, GetResult.books] at h
      split at h <;>
        (rw [mem_sortByCreatedDesc] at h
         simp only [List.mem_filter, beq_iff_eq] at h
         tauto)
  | some w =>
    cases se with
    | none =>
      simp only [getBooks, GetResult.books] at h
      split at h <;>
        (rw [mem_sortByCreatedDesc] at h
         simp only [List.mem_filter, beq_iff_eq] at h
         tauto)
    | some v =>
      simp only [getBooks, GetResult.books] at h
      split at h <;> split at h <;>
        (rw [mem_sortByCreatedDesc] at h
         simp only [List.mem_filter, beq_iff_eq] at h
         tauto)


lemma jsStartsWith_iff {s pre : String} :
    jsStartsWith s pre = true ↔ pre.data <+: s.data := by
  simp [jsStartsWith, List.isPrefixOf_iff_prefix]

lemma data_prefix_of_matches {base p : String}
    (h : matchesPathPattern base p = true) : base.data <+: p.data := by
  rcases Bool.or_eq_true _ _ |>.mp h with h1 | h2
  · rw [show p = base from by simpa using h1]
  · have h3 : (base ++ "/").data <+: p.data := jsStartsWith_iff.mp h2
    rw [String.data_append] at h3
    exact (List.prefix_append base.data _).trans h3

lemma startsWith_of_matches {base p : String}
    (h : matchesPathPattern base p = true) : jsStartsWith p base = true :=
  jsStartsWith_iff.mpr (data_prefix_of_matches h)

lemma startsWith_false_of_incomparable {b1 b2 p : String}
    (h1 : ¬ b2.data <+: b1.data) (h2 : ¬ b1.data <+: b2.data)
    (h : jsStartsWith p b1 = true) : jsStartsWith p b2 = false := by
  rw [Bool.eq_false_iff]
  intro hc
  rcases List.prefix_or_prefix_of_prefix (jsStartsWith_iff.mp h)
    (jsStartsWith_iff.mp hc) with hp | hp
  · exact h2 hp
  · exact h1 hp

lemma eq_of_mem_of_id_eq {l : List Book} {a b : Book}
    (hnodup : (l.map Book.id).Nodup) (ha : a ∈ l) (hb : b ∈ l)
    (h : a.id = b.id) : a = b :=
  List.inj_on_of_nodup_map hnodup ha hb h

/-- A sample row owned by user `alice`. -/
def aliceBook : Book := ⟨"1", "alice", "T", "A", "reading", 0⟩

/-- A one-row table holding `aliceBook`. -/
def sampleDb : DB := ⟨[aliceBook], 2, 5⟩


/-! ### Claim theorems -/

/-- C2: for every authenticated POST /api/books request that creates a record,
the stored `user_id` equals the caller's session identity, the record is the
one appended to the table, and the handler's outcome is independent of any
owner field carried by the request body. -/
theorem ownerForcedOnCreate (sess : Session) (body : CreateReq) (db : DB)
    (book : Book) (db2 : DB)
    (h : postBook (some sess) body db = (.created book, db2)) :
    book.user_id = sess.user_id ∧ db2.books = db.books ++ [book] ∧
      (∀ c : Option String,
        postBook (some sess) { body with body_user_id := c } db =
          postBook (some sess) body db) := by
  simp only [postBook] at h
  split at h
  · simp [Prod.mk.injEq] at h
  · split at h
    · simp [Prod.mk.injEq] at h
    · rw [Prod.mk.injEq] at h
      obtain ⟨h1, h2⟩ := h
      injection h1 with h3
      subst h3
      subst h2
      exact ⟨rfl, rfl, fun c => rfl⟩

/-- Witness for C2 at a concrete input: the body claims owner `mallory`, yet
the stored record belongs to the session user `alice`. -/
theorem ownerForcedOnCreateWitness :
    (⟨"0", "alice", "Dune", "Herbert", "reading", 0⟩ : Book).user_id = "alice" :=
  (ownerForcedOnCreate ⟨"alice"⟩ ⟨"Dune", "Herbert", "reading", some "mallory"⟩
    ⟨[], 0, 0⟩ ⟨"0", "alice", "Dune", "Herbert", "reading", 0⟩
    ⟨[⟨"0", "alice", "Dune", "Herbert", "reading", 0⟩], 1, 1⟩ (by decide)).1


/-- C6 (amended): POST rejects an empty (falsy) title or author with 400 and
creates no record; a record a POST does store carries the trimmed title and
author; and PATCH with an empty body is rejected with 400 and mutates no
record. (The original claim's guarantee that stored values are non-empty
fails: a whitespace-only title passes the falsy check and is stored as the
empty string after trimming — see the counterexample.) -/
theorem validationGuards (sess : Session) (body : CreateReq) (db : DB)
    (book : Book) (db2 : DB) (id : String) :
    (body.title = "" ∨ body.author = "" →
      postBook (some sess) body db = (.err 400 "Title and author are required", db))
    ∧ (postBook (some sess) body db = (.created book, db2) →
        book.title = jsTrim body.title ∧ book.author = jsTrim body.author ∧
          db2.books = db.books ++ [book])
    ∧ patchBook (some sess) id ⟨none, none, none⟩ db =
        (.err 400 "No valid fields to update", db) := by
  refine ⟨?_, ?_, ?_⟩
  · intro hempty
    have hcond : (body.title == "" || body.author == "") = true := by
      rcases hempty with h | h <;> simp [h]
    simp [postBook, hcond]
  · intro h
    simp only [postBook] at h
    split at h
    · simp [Prod.mk.injEq] at h
    · split at h
      · simp [Prod.mk.injEq] at h
      · rw [Prod.mk.injEq] at h
        obtain ⟨h1, h2⟩ := h
        injection h1 with h3
        subst h3
        subst h2
        exact ⟨rfl, rfl, rfl⟩
  · rfl

/-- Witness for C6 at concrete inputs: empty title is rejected with 400 and
no record is created; an empty PATCH body is rejected with 400 unchanged. -/
theorem validationGuardsWitness :
    postBook (some ⟨"alice"⟩) ⟨"", "Herbert", "reading", none⟩ ⟨[], 0, 0⟩
      = (.err 400 "Title and author are required", ⟨[], 0, 0⟩)
    ∧ patchBook (some ⟨"alice"⟩) "1" ⟨none, none, none⟩ sampleDb
      = (.err 400 "No valid fields to update", sampleDb) :=
  ⟨(validationGuards ⟨"alice"⟩ ⟨"", "Herbert", "reading", none⟩ ⟨[], 0, 0⟩
      aliceBook ⟨[], 0, 0⟩ "1").1 (Or.inl rfl),
   (validationGuards ⟨"alice"⟩ ⟨"", "Herbert", "reading", none⟩ sampleDb
      aliceBook ⟨[], 0, 0⟩ "1").2.2⟩

/-- C6 counterexample: a POST whose title is the single space " " passes the
falsy check, succeeds with 201, and stores the empty string as title, so not
every stored record has a non-empty title. -/
theorem postWhitespaceTitleCounterexample :
    postBook (some ⟨"alice"⟩) ⟨" ", "Herbert", "reading", none⟩ ⟨[], 0, 0⟩
      = (.created ⟨"0", "alice", "", "Herbert", "reading", 0⟩,
         ⟨[⟨"0", "alice", "", "Herbert", "reading", 0⟩], 1, 1⟩)
    ∧ (⟨"0", "alice", "", "Herbert", "reading", 0⟩ : Book).title = "" :=
  ⟨by decide, rfl⟩


/-- C10: on PATCH, a status outside the enum is silently dropped from the
updates object; an updates object that ends up empty yields 400 with error
"No valid fields to update" and no mutation; PATCH never answers with the
POST-style "Invalid status" 400; and when the body also carries a truthy
title, the update proceeds on the caller's matching row applying only the
surviving fields (title updated, status untouched). -/
theorem patchStatusSilentlyDropped (sess : Session) (id : String)
    (body : UpdateReq) (db : DB) (st t : String) (b : Book) :
    (validStatus st = false →
      (buildUpdates { body with status := some st }).status = none)
    ∧ ((buildUpdates body).isEmpty = true →
        patchBook (some sess) id body db = (.err 400 "No valid fields to update", db))
    ∧ (patchBook (some sess) id body db).1 ≠ .err 400 "Invalid status"
    ∧ (body = ⟨some t, none, some st⟩ → (t != "") = true → validStatus st = false →
        db.books.filter (fun c => c.id == id && c.user_id == sess.user_id) = [b] →
        (patchBook (some sess) id body db).1 = .ok { b with title := jsTrim t }) := by
  refine ⟨?_, ?_, ?_, ?_⟩
  · intro hv
    simp [buildUpdates, hv]
  · intro hempty
    simp [patchBook, hempty]
  · simp only [patchBook]
    split
    · simp
    · split
      · simp
      · simp [pgrstNoRowsMsg]
  · rintro rfl ht hv hfilter
    have hu : buildUpdates ⟨some t, none, some st⟩ = ⟨some (jsTrim t), none, none⟩ := by
      simp [buildUpdates, ht, hv]
    simp only [patchBook, hu, Updates.isEmpty]
    rw [hfilter]
    simp [applyUpdates]

/-- Witness for C10 at a concrete input: a PATCH carrying a bogus status and
the title "X" succeeds and updates only the title of alice's book. -/
theorem patchStatusSilentlyDroppedWitness :
    (patchBook (some ⟨"alice"⟩) "1" ⟨some "X", none, some "bogus"⟩ sampleDb).1
      = .ok ⟨"1", "alice", "X", "A", "reading", 0⟩ :=
  (patchStatusSilentlyDropped ⟨"alice"⟩ "1" ⟨some "X", none, some "bogus"⟩
    sampleDb "bogus" "X" aliceBook).2.2.2 rfl (by decide) (by decide) (by decide)


/-- C7: with a valid status value the authenticated list request returns
exactly the caller's books carrying that status; with any other value the
filter is silently ignored — the response equals the unfiltered list and is
a 200, never a 400. -/
theorem statusFilterBehavior (sess : Session) (db : DB) (v : String) (b : Book) :
    (validStatus v = true →
      (b ∈ (getBooks (some sess) (some v) none db).books ↔
        b ∈ db.books ∧ b.user_id = sess.user_id ∧ b.status = v))
    ∧ (validStatus v = false →
        getBooks (some sess) (some v) none db = getBooks (some sess) none none db
        ∧ (getBooks (some sess) (some v) none db).httpStatus = 200) := by
  constructor
  · intro hv
    rw [getBooks_valid_status_books hv, mem_sortByCreatedDesc]
    simp only [List.mem_filter, beq_iff_eq]
    tauto
  · intro hv
    refine ⟨getBooks_invalid_status hv, ?_⟩
    rw [getBooks_invalid_status hv]
    rfl

/-- Witness for C7 at concrete inputs: `status=reading` returns alice's
reading book, and `status=foo` is ignored, returning the full set. -/
theorem statusFilterBehaviorWitness :
    aliceBook ∈ (getBooks (some ⟨"alice"⟩) (some "reading") none sampleDb).books
    ∧ getBooks (some ⟨"alice"⟩) (some "foo") none sampleDb
        = getBooks (some ⟨"alice"⟩) none none sampleDb :=
  ⟨((statusFilterBehavior ⟨"alice"⟩ sampleDb "reading" aliceBook).1 (by decide)).mpr
      ⟨by decide, rfl, rfl⟩,
   ((statusFilterBehavior ⟨"alice"⟩ sampleDb "foo" aliceBook).2 (by decide)).1⟩

/-- C8: with a non-empty search value the authenticated list request returns
exactly the caller's books whose title or author contains the search text
case-insensitively; an empty search applies no filter. -/
theorem searchFilterBehavior (sess : Session) (db : DB) (se : String) (b : Book) :
    ((se != "") = true →
      (b ∈ (getBooks (some sess) none (some se) db).books ↔
        b ∈ db.books ∧ b.user_id = sess.user_id ∧
          (se.data.map lowerChar <:+: b.title.data.map lowerChar ∨
            se.data.map lowerChar <:+: b.author.data.map lowerChar)))
    ∧ getBooks (some sess) none (some "") db = getBooks (some sess) none none db := by
  constructor
  · intro hse
    rw [getBooks_search_books hse, mem_sortByCreatedDesc]
    simp only [List.mem_filter, beq_iff_eq, matchesSearch, ilikeContains,
      Bool.or_eq_true, decide_eq_true_eq]
    tauto
  · rfl


/-- A three-row table used to exercise the search filter. -/
def duneDb : DB :=
  ⟨[⟨"1", "alice", "Dune", "Herbert", "reading", 0⟩,
    ⟨"2", "alice", "Essays", "John Dune", "completed", 1⟩,
    ⟨"3", "alice", "Hobbit", "Tolkien", "wishlist", 2⟩], 4, 3⟩

/-- Witness for C8 at concrete inputs: `search=dune` matches the book titled
"Dune" and the book authored "John Dune", and excludes the unrelated book. -/
theorem searchFilterBehaviorWitness :
    (⟨"1", "alice", "Dune", "Herbert", "reading", 0⟩ : Book)
        ∈ (getBooks (some ⟨"alice"⟩) none (some "dune") duneDb).books
    ∧ (⟨"2", "alice", "Essays", "John Dune", "completed", 1⟩ : Book)
        ∈ (getBooks (some ⟨"alice"⟩) none (some "dune") duneDb).books
    ∧ (⟨"3", "alice", "Hobbit", "Tolkien", "wishlist", 2⟩ : Book)
        ∉ (getBooks (some ⟨"alice"⟩) none (some "dune") duneDb).books :=
  ⟨((searchFilterBehavior ⟨"alice"⟩ duneDb "dune"
      ⟨"1", "alice", "Dune", "Herbert", "reading", 0⟩).1 (by decide)).mpr
      ⟨by decide, rfl, Or.inl (by decide)⟩,
   ((searchFilterBehavior ⟨"alice"⟩ duneDb "dune"
      ⟨"2", "alice", "Essays", "John Dune", "completed", 1⟩).1 (by decide)).mpr
      ⟨by decide, rfl, Or.inr (by decide)⟩,
   fun h => absurd (((searchFilterBehavior ⟨"alice"⟩ duneDb "dune"
      ⟨"3", "alice", "Hobbit", "Tolkien", "wishlist", 2⟩).1 (by decide)).mp h).2.2
      (by decide)⟩


/-- C9: creating {title: Dune, author: Herbert, status: reading} on a table
whose rows all predate the current clock, then listing with no filters,
returns the created record first, and that record carries the
server-generated id and creation time. -/
theorem createThenListRoundTrip (sess : Session) (db : DB) (book : Book)
    (db2 : DB)
    (hfresh : ∀ b ∈ db.books, b.created_at < db.now)
    (hpost : postBook (some sess) ⟨"Dune", "Herbert", "reading", none⟩ db
      = (.created book, db2)) :
    (getBooks (some sess) none none db2).books.head? = some book
    ∧ book.id = toString db.nextId ∧ book.created_at = db.now := by
  have heq : postBook (some sess) ⟨"Dune", "Herbert", "reading", none⟩ db
      = (.created ⟨toString db.nextId, sess.user_id, jsTrim "Dune", jsTrim "Herbert",
          "reading", db.now⟩,
        ⟨db.books ++ [⟨toString db.nextId, sess.user_id, jsTrim "Dune", jsTrim "Herbert",
          "reading", db.now⟩], db.nextId + 1, db.now + 1⟩) := rfl
  rw [heq, Prod.mk.injEq] at hpost
  obtain ⟨h1, h2⟩ := hpost
  injection h1 with h3
  subst h3
  subst h2
  refine ⟨?_, rfl, rfl⟩
  rw [getBooks_none_none_books]
  apply head_sortByCreatedDesc
  · rw [List.mem_filter]
    exact ⟨List.mem_append_right _ (List.mem_singleton_self _), by simp⟩
  · intro y hy
    rw [List.mem_filter] at hy
    rcases List.mem_append.mp hy.1 with hold | hnew
    · exact Or.inr (hfresh y hold)
    · exact Or.inl (List.mem_singleton.mp hnew)

/-- Witness for C9 at a concrete input: creating on the empty table and then
listing returns the created record first. -/
theorem createThenListRoundTripWitness :
    (getBooks (some ⟨"alice"⟩) none none
        ⟨[⟨"0", "alice", "Dune", "Herbert", "reading", 0⟩], 1, 1⟩).books.head?
      = some ⟨"0", "alice", "Dune", "Herbert", "reading", 0⟩ :=
  (createThenListRoundTrip ⟨"alice"⟩ ⟨[], 0, 0⟩
    ⟨"0", "alice", "Dune", "Herbert", "reading", 0⟩
    ⟨[⟨"0", "alice", "Dune", "Herbert", "reading", 0⟩], 1, 1⟩
    (by simp) (by decide)).1


lemma filter_idOwner_eq_nil {sess : Session} {id : String} {db : DB}
    (hnomatch : ∀ b ∈ db.books, ¬(b.id = id ∧ b.user_id = sess.user_id)) :
    db.books.filter (fun b => b.id == id && b.user_id == sess.user_id) = [] := by
  rw [List.filter_eq_nil_iff]
  intro a ha
  have := hnomatch a ha
  simp only [Bool.and_eq_true, beq_iff_eq]
  tauto

lemma patchBook_nomatch {sess : Session} {id : String} {body : UpdateReq}
    {db : DB} (hbody : (buildUpdates body).isEmpty = false)
    (hnomatch : ∀ b ∈ db.books, ¬(b.id = id ∧ b.user_id = sess.user_id)) :
    patchBook (some sess) id body db = (.err 500 pgrstNoRowsMsg, db) := by
  simp only [patchBook, hbody]
  rw [filter_idOwner_eq_nil hnomatch]
  simp

lemma deleteBookById_nomatch {sess : Session} {id : String} {db : DB}
    (hnomatch : ∀ b ∈ db.books, ¬(b.id = id ∧ b.user_id = sess.user_id)) :
    deleteBookById (some sess) id db
      = (.message "Book deleted successfully", db) := by
  have hkeep : db.books.filter (fun b => !(b.id == id && b.user_id == sess.user_id))
      = db.books := by
    rw [List.filter_eq_self]
    intro a ha
    have hna := hnomatch a ha
    by_cases hA : a.id = id
    · have hB : a.user_id ≠ sess.user_id := fun hB => hna ⟨hA, hB⟩
      simp [hA, hB]
    · simp [hA]
  simp only [deleteBookById, hkeep]

lemma deleteBookCollection_nomatch {sess : Session} {id p : String} {db : DB}
    (hp : pathLastSegment p = id) (hid : id ≠ "")
    (hnomatch : ∀ b ∈ db.books, ¬(b.id = id ∧ b.user_id = sess.user_id)) :
    deleteBookCollection (some sess) p db
      = (.err 404 "Book not found or unauthorized", db) := by
  have hbe : (id == "") = false := by
    simpa using hid
  simp only [deleteBookCollection, hp, hbe]
  rw [filter_idOwner_eq_nil hnomatch]
  simp

/-- C3 (amended): for an authenticated PATCH with a valid non-empty body,
when no row carries the target id with the caller as owner — the record does
not exist, or exists under another owner — both cases produce the identical
outward response: a 500 carrying the backend's no-rows message (not 401/404),
and the table is left unchanged. -/
theorem patchMissingOrForeignSameSignal (sess : Session) (id : String)
    (body : UpdateReq) (db : DB)
    (hbody : (buildUpdates body).isEmpty = false)
    (hnomatch : ∀ b ∈ db.books, ¬(b.id = id ∧ b.user_id = sess.user_id)) :
    patchBook (some sess) id body db = (.err 500 pgrstNoRowsMsg, db) :=
  patchBook_nomatch hbody hnomatch

/-- Witness for C3: bob's PATCH against alice's record (and the same PATCH
against an absent id) both answer 500 with the backend message, unchanged. -/
theorem patchMissingOrForeignSameSignalWitness :
    patchBook (some ⟨"bob"⟩) "1" ⟨some "X", none, none⟩ sampleDb
      = (.err 500 pgrstNoRowsMsg, sampleDb)
    ∧ patchBook (some ⟨"bob"⟩) "9" ⟨some "X", none, none⟩ sampleDb
      = (.err 500 pgrstNoRowsMsg, sampleDb) :=
  ⟨patchMissingOrForeignSameSignal ⟨"bob"⟩ "1" ⟨some "X", none, none⟩ sampleDb
    (by decide) (by decide),
   patchMissingOrForeignSameSignal ⟨"bob"⟩ "9" ⟨some "X", none, none⟩ sampleDb
    (by decide) (by decide)⟩

/-- C3 counterexample: bob's valid PATCH against alice's existing record
answers 500, not the 401/404 the claim requires. -/
theorem patchForeignNot404Counterexample :
    (patchBook (some ⟨"bob"⟩) "1" ⟨some "X", none, none⟩ sampleDb).1.httpStatus = 500
    ∧ ¬((patchBook (some ⟨"bob"⟩) "1" ⟨some "X", none, none⟩ sampleDb).1.httpStatus = 401
        ∨ (patchBook (some ⟨"bob"⟩) "1" ⟨some "X", none, none⟩ sampleDb).1.httpStatus = 404) :=
  ⟨by decide, by decide⟩


/-- C4 (amended): for an authenticated DELETE whose id denotes no existing
record owned by the caller (including an already-deleted id), neither variant
mutates anything and repeating the call yields the identical outcome both
times; but only the collection-route variant answers with the not-found
outcome (404) — the id-route variant answers 200 with a success message. -/
theorem deleteMissingOutcomes (sess : Session) (id p : String) (db : DB)
    (hp : pathLastSegment p = id) (hid : id ≠ "")
    (hnomatch : ∀ b ∈ db.books, ¬(b.id = id ∧ b.user_id = sess.user_id)) :
    deleteBookCollection (some sess) p db
      = (.err 404 "Book not found or unauthorized", db)
    ∧ deleteBookById (some sess) id db
      = (.message "Book deleted successfully", db)
    ∧ deleteBookCollection (some sess) p (deleteBookCollection (some sess) p db).2
      = (.err 404 "Book not found or unauthorized", db)
    ∧ deleteBookById (some sess) id (deleteBookById (some sess) id db).2
      = (.message "Book deleted successfully", db) := by
  have hcoll := deleteBookCollection_nomatch hp hid hnomatch
  have hbyid := deleteBookById_nomatch hnomatch
  refine ⟨hcoll, hbyid, ?_, ?_⟩
  · rw [hcoll]
    exact hcoll
  · rw [hbyid]
    exact hbyid

/-- Witness for C4 at concrete inputs: deleting the absent id 9 as alice via
either variant leaves the table unchanged; the collection route answers 404,
the id route answers 200. -/
theorem deleteMissingOutcomesWitness :
    deleteBookCollection (some ⟨"alice"⟩) "/api/books/9" sampleDb
      = (.err 404 "Book not found or unauthorized", sampleDb)
    ∧ deleteBookById (some ⟨"alice"⟩) "9" sampleDb
      = (.message "Book deleted successfully", sampleDb) :=
  ⟨(deleteMissingOutcomes ⟨"alice"⟩ "9" "/api/books/9" sampleDb (by decide)
      (by decide) (by decide)).1,
   (deleteMissingOutcomes ⟨"alice"⟩ "9" "/api/books/9" sampleDb (by decide)
      (by decide) (by decide)).2.1⟩

/-- C4 counterexample: the id-route DELETE of an id that denotes no record
owned by the caller answers 200 with a success message, not the not-found
outcome the claim requires of both variants. -/
theorem deleteByIdMissingNot404Counterexample :
    (deleteBookById (some ⟨"alice"⟩) "9" sampleDb).1
      = .message "Book deleted successfully"
    ∧ ¬((deleteBookById (some ⟨"alice"⟩) "9" sampleDb).1.httpStatus = 401
        ∨ (deleteBookById (some ⟨"alice"⟩) "9" sampleDb).1.httpStatus = 404) :=
  ⟨by decide, by decide⟩


/-- C1 (amended): for a record R and session S of a different user (ids
unique in the table), no operation ever returns R's data or mutates or
deletes R: the list never contains R, PATCH on R's id leaves the table
unchanged and never answers with a book payload, and both DELETE variants
leave the table unchanged — but the outward signal is the not-found 404 only
for the collection-route DELETE; the id-route DELETE answers 200 with a
success message and PATCH answers 500. -/
theorem crossUserIsolation (R : Book) (S : Session) (db : DB)
    (st se : Option String) (body : UpdateReq) (p : String)
    (hmem : R ∈ db.books) (hne : R.user_id ≠ S.user_id)
    (hnodup : (db.books.map Book.id).Nodup)
    (hp : pathLastSegment p = R.id) (hid : R.id ≠ "") :
    R ∉ (getBooks (some S) st se db).books
    ∧ (patchBook (some S) R.id body db).2 = db
    ∧ (∀ bk, (patchBook (some S) R.id body db).1 ≠ .ok bk)
    ∧ deleteBookById (some S) R.id db
      = (.message "Book deleted successfully", db)
    ∧ deleteBookCollection (some S) p db
      = (.err 404 "Book not found or unauthorized", db) := by
  have hnomatch : ∀ b ∈ db.books, ¬(b.id = R.id ∧ b.user_id = S.user_id) := by
    intro b hb hcontra
    have hbR : b = R := eq_of_mem_of_id_eq hnodup hb hmem hcontra.1
    rw [hbR] at hcontra
    exact hne hcontra.2
  refine ⟨fun h => hne (user_of_mem_getBooks h).2, ?_, ?_,
    deleteBookById_nomatch hnomatch, deleteBookCollection_nomatch hp hid hnomatch⟩
  · by_cases hety : (buildUpdates body).isEmpty = true
    · simp [patchBook, hety]
    · have hb : (buildUpdates body).isEmpty = false := by simpa using hety
      rw [patchBook_nomatch hb hnomatch]
  · intro bk
    by_cases hety : (buildUpdates body).isEmpty = true
    · simp [patchBook, hety]
    · have hb : (buildUpdates body).isEmpty = false := by simpa using hety
      rw [patchBook_nomatch hb hnomatch]
      simp

/-- Witness for C1 at concrete inputs: bob cannot see alice's record in the
list and bob's id-route DELETE leaves the table unchanged. -/
theorem crossUserIsolationWitness :
    aliceBook ∉ (getBooks (some ⟨"bob"⟩) none none sampleDb).books
    ∧ deleteBookById (some ⟨"bob"⟩) "1" sampleDb
      = (.message "Book deleted successfully", sampleDb) :=
  ⟨(crossUserIsolation aliceBook ⟨"bob"⟩ sampleDb none none
      ⟨some "X", none, none⟩ "/api/books/1" (by decide) (by decide) (by decide)
      (by decide) (by decide)).1,
   (crossUserIsolation aliceBook ⟨"bob"⟩ sampleDb none none
      ⟨some "X", none, none⟩ "/api/books/1" (by decide) (by decide) (by decide)
      (by decide) (by decide)).2.2.2.1⟩

/-- C1 counterexample: bob's id-route DELETE aimed at alice's record answers
200 with a success message — not the not-found/unauthorized outcome the claim
requires (alice's record survives untouched, as the amended theorem shows). -/
theorem crossUserDeleteNot404Counterexample :
    (deleteBookById (some ⟨"bob"⟩) "1" sampleDb).1.httpStatus = 200
    ∧ ¬((deleteBookById (some ⟨"bob"⟩) "1" sampleDb).1.httpStatus = 401
        ∨ (deleteBookById (some ⟨"bob"⟩) "1" sampleDb).1.httpStatus = 404) :=
  ⟨by decide, by decide⟩


/-- C5: for requests in the matcher scope the gatekeeper redirects
unauthenticated dashboard traffic to /auth/login, answers 401 to
unauthenticated API traffic, redirects authenticated traffic away from
/auth to /dashboard, and passes every other combination through untouched;
requests outside the matcher scope always pass through, which gives the
prefix test exact-prefix semantics: /dashboardfoo is not treated as under
/dashboard. -/
theorem edgeGatekeeperPolicy (hasSession : Bool) (p : String) :
    (hasSession = false → matchesPathPattern "/dashboard" p = true →
      edgeGatekeeper hasSession p = .redirect "/auth/login")
    ∧ (hasSession = false → matchesPathPattern "/api" p = true →
      edgeGatekeeper hasSession p = .unauthorizedJson)
    ∧ (hasSession = true → matchesPathPattern "/auth" p = true →
      edgeGatekeeper hasSession p = .redirect "/dashboard")
    ∧ (inMatcherScope p = false → edgeGatekeeper hasSession p = .next)
    ∧ ((hasSession = true ∨ (matchesPathPattern "/dashboard" p = false
          ∧ matchesPathPattern "/api" p = false))
       → (hasSession = false ∨ matchesPathPattern "/auth" p = false)
       → edgeGatekeeper hasSession p = .next)
    ∧ (inMatcherScope "/dashboardfoo" = false
       ∧ edgeGatekeeper hasSession "/dashboardfoo" = .next) := by
  refine ⟨?_, ?_, ?_, ?_, ?_, by decide,
    by simp [edgeGatekeeper, show inMatcherScope "/dashboardfoo" = false from by decide]⟩
  · intro hs hm
    have hsc : inMatcherScope p = true := by simp [inMatcherScope, hm]
    have hsw := startsWith_of_matches hm
    simp [edgeGatekeeper, hsc, middleware, hs, hsw]
  · intro hs hm
    have hsc : inMatcherScope p = true := by simp [inMatcherScope, hm]
    have hswApi := startsWith_of_matches hm
    have hswDash : jsStartsWith p "/dashboard" = false :=
      startsWith_false_of_incomparable (by decide) (by decide) hswApi
    simp [edgeGatekeeper, hsc, middleware, hs, hswApi, hswDash]
  · intro hs hm
    have hsc : inMatcherScope p = true := by simp [inMatcherScope, hm]
    have hswAuth := startsWith_of_matches hm
    simp [edgeGatekeeper, hsc, middleware, hs, hswAuth]
  · intro h
    simp [edgeGatekeeper, h]
  · intro h1 h2
    by_cases hsc : inMatcherScope p = true
    · have hsc2 := hsc
      simp only [inMatcherScope, Bool.or_eq_true] at hsc2
      rcases hsc2 with (hdash | hauth) | hapi
      · have hs : hasSession = true := by
          rcases h1 with hs | ⟨hd, _⟩
          · exact hs
          · rw [hdash] at hd; exact absurd hd (by decide)
        have hswAuth : jsStartsWith p "/auth" = false :=
          startsWith_false_of_incomparable (by decide) (by decide)
            (startsWith_of_matches hdash)
        simp [edgeGatekeeper, hsc, middleware, hs, hswAuth]
      · have hs : hasSession = false := by
          rcases h2 with hs | ha
          · exact hs
          · rw [hauth] at ha; exact absurd ha (by decide)
        have hswDash : jsStartsWith p "/dashboard" = false :=
          startsWith_false_of_incomparable (by decide) (by decide)
            (startsWith_of_matches hauth)
        have hswApi : jsStartsWith p "/api" = false :=
          startsWith_false_of_incomparable (by decide) (by decide)
            (startsWith_of_matches hauth)
        simp [edgeGatekeeper, hsc, middleware, hs, hswDash, hswApi]
      · have hs : hasSession = true := by
          rcases h1 with hs | ⟨_, ha⟩
          · exact hs
          · rw [hapi] at ha; exact absurd ha (by decide)
        have hswAuth : jsStartsWith p "/auth" = false :=
          startsWith_false_of_incomparable (by decide) (by decide)
            (startsWith_of_matches hapi)
        simp [edgeGatekeeper, hsc, middleware, hs, hswAuth]
    · have hf : inMatcherScope p = false := by simpa using hsc
      simp [edgeGatekeeper, hf]

/-- Witness for C5 at concrete paths: each policy branch observed once. -/
theorem edgeGatekeeperPolicyWitness :
    edgeGatekeeper false "/dashboard/settings" = .redirect "/auth/login"
    ∧ edgeGatekeeper false "/api/books" = .unauthorizedJson
    ∧ edgeGatekeeper true "/auth/login" = .redirect "/dashboard"
    ∧ edgeGatekeeper false "/auth/login" = .next :=
  ⟨(edgeGatekeeperPolicy false "/dashboard/settings").1 rfl (by decide),
   (edgeGatekeeperPolicy false "/api/books").2.1 rfl (by decide),
   (edgeGatekeeperPolicy true "/auth/login").2.2.1 rfl (by decide),
   (edgeGatekeeperPolicy false "/auth/login").2.2.2.2.1
     (Or.inr ⟨by decide, by decide⟩) (Or.inl rfl)⟩

end BookTracker
